import Mathlib

/-! ANNarchy-iCub documentation tables

The repository ships three generated JavaScript data files of its HTML documentation:

* `annotated_dup.js` binds `annotated_dup`, the class-annotation tree;
* `doc/html/navtreedata.js` binds `NAVTREE`, the page navigation tree, and
  `NAVTREEINDEX`, the navigation index;
* `doc/html/search/all_a.js` binds `searchData`, the search index.

Each binding holds one array literal.  The literals are embedded below token by token as
values of `JSValue`; everything stated afterwards is stated about these values.
-/

namespace DoxygenData

/-- A JavaScript value as it occurs in the data files: `null`, a number literal, a string
literal or an array literal. -/
inductive JSValue where
  | null : JSValue
  | num : Nat → JSValue
  | str : String → JSValue
  | arr : List JSValue → JSValue

namespace JSValue

/-- The elements of an array literal; a value that is no array has none. -/
def elems : JSValue → List JSValue
  | arr xs => xs
  | _ => []

/-- The string held by a string literal. -/
def str? : JSValue → Option String
  | str s => some s
  | _ => none

/-- Whether the value is an array literal. -/
def isArr : JSValue → Bool
  | arr _ => true
  | _ => false

/-- Whether the value is a string literal. -/
def isStr : JSValue → Bool
  | str _ => true
  | _ => false

/-- Property access `v[i]` on an array literal; `none` stands for `undefined`. -/
def idx? (v : JSValue) (i : Nat) : Option JSValue :=
  v.elems[i]?

end JSValue

open JSValue

/-! ## The data, from the source files -/

/-- The class-annotation tree, `var annotated_dup` of `annotated_dup.js`. -/
def annotated_dup : JSValue :=
  .arr [
      .arr [.str "ANN_iCub_Interface", .str "de/d66/namespaceANN__iCub__Interface.html", .arr [
        .arr [.str "ANNarchy_iCub_Populations", .str "d0/dba/namespaceANN__iCub__Interface_1_1ANNarchy__iCub__Populations.html", .arr [
          .arr [.str "JointPopulation", .str "d2/d25/namespaceANN__iCub__Interface_1_1ANNarchy__iCub__Populations_1_1JointPopulation.html", .arr [
            .arr [.str "JointControl", .str "d2/db7/classANN__iCub__Interface_1_1ANNarchy__iCub__Populations_1_1JointPopulation_1_1JointControl.html", .str "d2/db7/classANN__iCub__Interface_1_1ANNarchy__iCub__Populations_1_1JointPopulation_1_1JointControl"],
            .arr [.str "JointReadout", .str "d9/dfe/classANN__iCub__Interface_1_1ANNarchy__iCub__Populations_1_1JointPopulation_1_1JointReadout.html", .str "d9/dfe/classANN__iCub__Interface_1_1ANNarchy__iCub__Populations_1_1JointPopulation_1_1JointReadout"]
          ]],
          .arr [.str "KinematicPopulation", .str "db/dd8/namespaceANN__iCub__Interface_1_1ANNarchy__iCub__Populations_1_1KinematicPopulation.html", .arr [
            .arr [.str "KinematicForward", .str "d9/df9/classANN__iCub__Interface_1_1ANNarchy__iCub__Populations_1_1KinematicPopulation_1_1KinematicForward.html", .str "d9/df9/classANN__iCub__Interface_1_1ANNarchy__iCub__Populations_1_1KinematicPopulation_1_1KinematicForward"]
          ]],
          .arr [.str "SkinPopulation", .str "d7/d4a/namespaceANN__iCub__Interface_1_1ANNarchy__iCub__Populations_1_1SkinPopulation.html", .arr [
            .arr [.str "SkinPopulation", .str "d8/d05/classANN__iCub__Interface_1_1ANNarchy__iCub__Populations_1_1SkinPopulation_1_1SkinPopulation.html", .str "d8/d05/classANN__iCub__Interface_1_1ANNarchy__iCub__Populations_1_1SkinPopulation_1_1SkinPopulation"]
          ]],
          .arr [.str "VisionPopulation", .str "d5/da9/namespaceANN__iCub__Interface_1_1ANNarchy__iCub__Populations_1_1VisionPopulation.html", .arr [
            .arr [.str "VisionPopulation", .str "d6/d86/classANN__iCub__Interface_1_1ANNarchy__iCub__Populations_1_1VisionPopulation_1_1VisionPopulation.html", .str "d6/d86/classANN__iCub__Interface_1_1ANNarchy__iCub__Populations_1_1VisionPopulation_1_1VisionPopulation"]
          ]]
        ]],
        .arr [.str "iCub", .str "d5/d16/namespaceANN__iCub__Interface_1_1iCub.html", .arr [
          .arr [.str "iCub_Interface", .str "de/d3a/namespaceANN__iCub__Interface_1_1iCub_1_1iCub__Interface.html", .arr [
            .arr [.str "ANNiCub_wrapper", .str "d7/d9c/classANN__iCub__Interface_1_1iCub_1_1iCub__Interface_1_1ANNiCub__wrapper.html", .str "d7/d9c/classANN__iCub__Interface_1_1iCub_1_1iCub__Interface_1_1ANNiCub__wrapper"]
          ]],
          .arr [.str "Joint_Reader", .str "d0/d02/namespaceANN__iCub__Interface_1_1iCub_1_1Joint__Reader.html", .arr [
            .arr [.str "PyJointReader", .str "d8/d96/classANN__iCub__Interface_1_1iCub_1_1Joint__Reader_1_1PyJointReader.html", .str "d8/d96/classANN__iCub__Interface_1_1iCub_1_1Joint__Reader_1_1PyJointReader"]
          ]],
          .arr [.str "Joint_Writer", .str "d5/d22/namespaceANN__iCub__Interface_1_1iCub_1_1Joint__Writer.html", .arr [
            .arr [.str "PyJointWriter", .str "db/d83/classANN__iCub__Interface_1_1iCub_1_1Joint__Writer_1_1PyJointWriter.html", .str "db/d83/classANN__iCub__Interface_1_1iCub_1_1Joint__Writer_1_1PyJointWriter"]
          ]],
          .arr [.str "Kinematic_Reader", .str "d1/d6b/namespaceANN__iCub__Interface_1_1iCub_1_1Kinematic__Reader.html", .arr [
            .arr [.str "PyKinematicReader", .str "db/d67/classANN__iCub__Interface_1_1iCub_1_1Kinematic__Reader_1_1PyKinematicReader.html", .str "db/d67/classANN__iCub__Interface_1_1iCub_1_1Kinematic__Reader_1_1PyKinematicReader"]
          ]],
          .arr [.str "Kinematic_Writer", .str "db/de5/namespaceANN__iCub__Interface_1_1iCub_1_1Kinematic__Writer.html", .arr [
            .arr [.str "PyKinematicWriter", .str "d1/d8f/classANN__iCub__Interface_1_1iCub_1_1Kinematic__Writer_1_1PyKinematicWriter.html", .str "d1/d8f/classANN__iCub__Interface_1_1iCub_1_1Kinematic__Writer_1_1PyKinematicWriter"]
          ]],
          .arr [.str "Skin_Reader", .str "d2/db4/namespaceANN__iCub__Interface_1_1iCub_1_1Skin__Reader.html", .arr [
            .arr [.str "PySkinReader", .str "da/dfa/classANN__iCub__Interface_1_1iCub_1_1Skin__Reader_1_1PySkinReader.html", .str "da/dfa/classANN__iCub__Interface_1_1iCub_1_1Skin__Reader_1_1PySkinReader"]
          ]],
          .arr [.str "Visual_Reader", .str "d1/db5/namespaceANN__iCub__Interface_1_1iCub_1_1Visual__Reader.html", .arr [
            .arr [.str "PyVisualReader", .str "db/d5f/classANN__iCub__Interface_1_1iCub_1_1Visual__Reader_1_1PyVisualReader.html", .str "db/d5f/classANN__iCub__Interface_1_1iCub_1_1Visual__Reader_1_1PyVisualReader"]
          ]]
        ]],
        .arr [.str "Sync", .str "df/d2d/namespaceANN__iCub__Interface_1_1Sync.html", .arr [
          .arr [.str "Master_Clock", .str "da/db6/namespaceANN__iCub__Interface_1_1Sync_1_1Master__Clock.html", .arr [
            .arr [.str "ClockInterface", .str "d8/d4b/classANN__iCub__Interface_1_1Sync_1_1Master__Clock_1_1ClockInterface.html", .str "d8/d4b/classANN__iCub__Interface_1_1Sync_1_1Master__Clock_1_1ClockInterface"],
            .arr [.str "MasterClock", .str "df/d81/classANN__iCub__Interface_1_1Sync_1_1Master__Clock_1_1MasterClock.html", .str "df/d81/classANN__iCub__Interface_1_1Sync_1_1Master__Clock_1_1MasterClock"]
          ]]
        ]]
      ]]
  ]

/-- The page navigation tree, `var NAVTREE` of `doc/html/navtreedata.js`. -/
def NAVTREE : JSValue :=
  .arr [
    .arr [.str "ANNarchy iCub Interface", .str "index.html", .arr [
      .arr [.str "Basic Python Examples", .str "d9/d61/Examples.html", .arr [
        .arr [.str "Main Module Handling", .str "d9/d61/Examples.html#autotoc_md8", .null],
        .arr [.str "Joint Reader", .str "d9/d61/Examples.html#autotoc_md9", .null],
        .arr [.str "Joint Writer", .str "d9/d61/Examples.html#autotoc_md10", .null],
        .arr [.str "Visual Reader", .str "d9/d61/Examples.html#autotoc_md11", .null],
        .arr [.str "Skin Reader", .str "d9/d61/Examples.html#autotoc_md12", .null],
        .arr [.str "Kinematic Reader", .str "d9/d61/Examples.html#autotoc_md13", .null],
        .arr [.str "Kinematic Writer", .str "d9/d61/Examples.html#autotoc_md14", .null],
        .arr [.str "Final Wrap-up", .str "d9/d61/Examples.html#autotoc_md15", .null]
      ]],
      .arr [.str "Generic Python Examples", .str "da/d22/Generic_Examples.html", .arr [
        .arr [.str "Non-gRPC version", .str "da/d22/Generic_Examples.html#autotoc_md1", .null],
        .arr [.str "gRPC version", .str "da/d22/Generic_Examples.html#autotoc_md2", .null]
      ]],
      .arr [.str "Installation", .str "d4/d6d/md_Installation.html", .null],
      .arr [.str "Configuration", .str "d7/da7/md_Manual.html", .null],
      .arr [.str "Folder structure", .str "d7/db6/Structure.html", .null],
      .arr [.str "ANNarchy iCub Interface", .str "d1/d19/md__home_torsten_Schreibtisch_iCub_General_Repos_Interface_ANNarchy_iCub_master_README.html", .arr [
        .arr [.str "Interface Module level description", .str "d1/d19/md__home_torsten_Schreibtisch_iCub_General_Repos_Interface_ANNarchy_iCub_master_README.html#autotoc_md17", .null],
        .arr [.str "Installation", .str "d1/d19/md__home_torsten_Schreibtisch_iCub_General_Repos_Interface_ANNarchy_iCub_master_README.html#autotoc_md18", .arr [
          .arr [.str "Dependencies", .str "d4/d6d/md_Installation.html#autotoc_md4", .null],
          .arr [.str "Default Installation", .str "d4/d6d/md_Installation.html#autotoc_md5", .null],
          .arr [.str "Enable Low-Level gRPC communication (optional)", .str "d4/d6d/md_Installation.html#autotoc_md6", .null],
          .arr [.str "Update", .str "d4/d6d/md_Installation.html#autotoc_md7", .null],
          .arr [.str "Default Installation", .str "d1/d19/md__home_torsten_Schreibtisch_iCub_General_Repos_Interface_ANNarchy_iCub_master_README.html#autotoc_md19", .null],
          .arr [.str "Enable Low-Level gRPC communication", .str "d1/d19/md__home_torsten_Schreibtisch_iCub_General_Repos_Interface_ANNarchy_iCub_master_README.html#autotoc_md20", .null]
        ]],
        .arr [.str "useful links", .str "d1/d19/md__home_torsten_Schreibtisch_iCub_General_Repos_Interface_ANNarchy_iCub_master_README.html#autotoc_md21", .null],
        .arr [.str "Authors", .str "d1/d19/md__home_torsten_Schreibtisch_iCub_General_Repos_Interface_ANNarchy_iCub_master_README.html#autotoc_md22", .null],
        .arr [.str "Publications", .str "d1/d19/md__home_torsten_Schreibtisch_iCub_General_Repos_Interface_ANNarchy_iCub_master_README.html#autotoc_md23", .null],
        .arr [.str "Dependencies", .str "d1/d19/md__home_torsten_Schreibtisch_iCub_General_Repos_Interface_ANNarchy_iCub_master_README.html#autotoc_md24", .arr [
          .arr [.str "Optional", .str "d1/d19/md__home_torsten_Schreibtisch_iCub_General_Repos_Interface_ANNarchy_iCub_master_README.html#autotoc_md25", .null]
        ]]
      ]],
      .arr [.str "Packages", .str "namespaces.html", .arr [
        .arr [.str "Packages", .str "namespaces.html", .str "namespaces_dup"],
        .arr [.str "Package Functions", .str "namespacemembers.html", .arr [
          .arr [.str "All", .str "namespacemembers.html", .null],
          .arr [.str "Functions", .str "namespacemembers_func.html", .null],
          .arr [.str "Variables", .str "namespacemembers_vars.html", .null]
        ]]
      ]],
      .arr [.str "Classes", .str "annotated.html", .arr [
        .arr [.str "Class List", .str "annotated.html", .str "annotated_dup"],
        .arr [.str "Class Index", .str "classes.html", .null],
        .arr [.str "Class Hierarchy", .str "hierarchy.html", .str "hierarchy"],
        .arr [.str "Class Members", .str "functions.html", .arr [
          .arr [.str "All", .str "functions.html", .null],
          .arr [.str "Functions", .str "functions_func.html", .null]
        ]]
      ]]
    ]]
  ]

/-- The navigation index, `var NAVTREEINDEX` of `doc/html/navtreedata.js`. -/
def NAVTREEINDEX : JSValue :=
  .arr [
  .str "annotated.html",
  .str "dd/d5c/namespaceANN__iCub__Interface_1_1Vocabs_a20733cc2c1f5c74230667cc78c609030.html#a20733cc2c1f5c74230667cc78c609030"
  ]

/-- The search index, `var searchData` of `doc/html/search/all_a.js`. -/
def searchData : JSValue :=
  .arr [
    .arr [.str "joint_5fangles",.arr [.str "joint_angles",.arr [.str "../d1/dc0/classJointReader.html#a7eaf984c771cdaa35deac3ff71a8819b",.num 1,.str "JointReader::joint_angles()"],.arr [.str "../df/d23/classJointWriter.html#a0a6860be2e9d23c731531153e49a0c29",.num 1,.str "JointWriter::joint_angles()"]]],
    .arr [.str "joint_5fdeg_5fres",.arr [.str "joint_deg_res",.arr [.str "../d1/dc0/classJointReader.html#a1bfec6b501faf46701f0ffa5de5957b6",.num 1,.str "JointReader"]]],
    .arr [.str "joint_5fdeg_5fres_5fabs",.arr [.str "joint_deg_res_abs",.arr [.str "../df/d23/classJointWriter.html#a45db0cbacf7c705c42fbe861dd15445f",.num 1,.str "JointWriter"]]],
    .arr [.str "joint_5fdeg_5fres_5frel",.arr [.str "joint_deg_res_rel",.arr [.str "../df/d23/classJointWriter.html#a4a12dab995ad76dff57ca65b26bd43a0",.num 1,.str "JointWriter"]]],
    .arr [.str "joint_5flimits",.arr [.str "joint_limits",.arr [.str "../d2/dd7/namespacejoint__limits.html",.num 1,.str "joint_limits"],.arr [.str "../d2/dd7/namespacejoint__limits.html#ae540d2359ed52defee5d7f276b681dac",.num 1,.str "joint_limits.joint_limits()"]]],
    .arr [.str "joint_5flimits_2epy",.arr [.str "joint_limits.py",.arr [.str "../da/d2b/joint__limits_8py.html",.num 1,.str ""]]],
    .arr [.str "joint_5fmax",.arr [.str "joint_max",.arr [.str "../d1/dc0/classJointReader.html#aca6fffb99a60a93079977b28944642a0",.num 1,.str "JointReader::joint_max()"],.arr [.str "../df/d23/classJointWriter.html#acff1e673265fb969fd40d325e9813db7",.num 1,.str "JointWriter::joint_max()"]]],
    .arr [.str "joint_5fmin",.arr [.str "joint_min",.arr [.str "../d1/dc0/classJointReader.html#a6babc91bfce927fbfcbcc4790e990646",.num 1,.str "JointReader::joint_min()"],.arr [.str "../df/d23/classJointWriter.html#ae37a2f9d49a2b2a251890a81ec6ada2c",.num 1,.str "JointWriter::joint_min()"]]],
    .arr [.str "joint_5freader_2ecpp",.arr [.str "Joint_Reader.cpp",.arr [.str "../d4/dc4/Joint__Reader_8cpp.html",.num 1,.str ""]]],
    .arr [.str "joint_5freader_2ehpp",.arr [.str "Joint_Reader.hpp",.arr [.str "../da/d11/Joint__Reader_8hpp.html",.num 1,.str ""]]],
    .arr [.str "joint_5fwriter_2ecpp",.arr [.str "Joint_Writer.cpp",.arr [.str "../d4/da1/Joint__Writer_8cpp.html",.num 1,.str ""]]],
    .arr [.str "joint_5fwriter_2ehpp",.arr [.str "Joint_Writer.hpp",.arr [.str "../d9/d8a/Joint__Writer_8hpp.html",.num 1,.str ""]]],
    .arr [.str "jointrclose",.arr [.str "JointRClose",.arr [.str "../da/d00/structiCubANN.html#ae174c068e1587f3a82883c2e9b337f07",.num 1,.str "iCubANN"]]],
    .arr [.str "jointreader",.arr [.str "JointReader",.arr [.str "../d1/dc0/classJointReader.html",.num 1,.str "JointReader"],.arr [.str "../d1/dc0/classJointReader.html#a87b608749f395f52327d7f81ff16480b",.num 1,.str "JointReader::JointReader()"]]],
    .arr [.str "jointrgetjointcount",.arr [.str "JointRGetJointCount",.arr [.str "../da/d00/structiCubANN.html#a4a7e511c7f4e61f0c0a2e9aabd928554",.num 1,.str "iCubANN"]]],
    .arr [.str "jointrgetjointsdegres",.arr [.str "JointRGetJointsDegRes",.arr [.str "../da/d00/structiCubANN.html#a73a412ff322fddcd7b6e2778873e25d6",.num 1,.str "iCubANN"]]],
    .arr [.str "jointrgetneuronsperjoint",.arr [.str "JointRGetNeuronsPerJoint",.arr [.str "../da/d00/structiCubANN.html#a25dd106370409b9ef6f6f8abb801c763",.num 1,.str "iCubANN"]]],
    .arr [.str "jointrinit",.arr [.str "JointRInit",.arr [.str "../da/d00/structiCubANN.html#a567cd7cd034d133e591535c26434cf40",.num 1,.str "iCubANN"]]],
    .arr [.str "jointrreaddoubleall",.arr [.str "JointRReadDoubleAll",.arr [.str "../da/d00/structiCubANN.html#a01def5c79813b01405d7ca9dd2a5ecde",.num 1,.str "iCubANN"]]],
    .arr [.str "jointrreaddoubleone",.arr [.str "JointRReadDoubleOne",.arr [.str "../da/d00/structiCubANN.html#a449d32f40c8bd1774b46637c23959eca",.num 1,.str "iCubANN"]]],
    .arr [.str "jointrreadpopall",.arr [.str "JointRReadPopAll",.arr [.str "../da/d00/structiCubANN.html#ad6ffff4d7c93c2801cd606fb1475dc99",.num 1,.str "iCubANN"]]],
    .arr [.str "jointrreadpopone",.arr [.str "JointRReadPopOne",.arr [.str "../da/d00/structiCubANN.html#a4aea3fc2c379bfae6720a0c6b6bea8fd",.num 1,.str "iCubANN"]]],
    .arr [.str "joints",.arr [.str "joints",.arr [.str "../d1/dc0/classJointReader.html#a4d3d6a75afc6d594ddc327aed46d92c2",.num 1,.str "JointReader::joints()"],.arr [.str "../df/d23/classJointWriter.html#a4e30ebd76f111fa20574e5787664f510",.num 1,.str "JointWriter::joints()"]]],
    .arr [.str "jointwclose",.arr [.str "JointWClose",.arr [.str "../da/d00/structiCubANN.html#aac0aa0fbfc91c50e010866b256e11462",.num 1,.str "iCubANN"]]],
    .arr [.str "jointwgetjointcount",.arr [.str "JointWGetJointCount",.arr [.str "../da/d00/structiCubANN.html#a811df17547d410a0b651178ac107f1e4",.num 1,.str "iCubANN"]]],
    .arr [.str "jointwgetjointsdegres",.arr [.str "JointWGetJointsDegRes",.arr [.str "../da/d00/structiCubANN.html#a65dddf9ee61abe37fd63113a0055f756",.num 1,.str "iCubANN"]]],
    .arr [.str "jointwgetneuronsperjoint",.arr [.str "JointWGetNeuronsPerJoint",.arr [.str "../da/d00/structiCubANN.html#ac161efb25435622fed97242702362709",.num 1,.str "iCubANN"]]],
    .arr [.str "jointwinit",.arr [.str "JointWInit",.arr [.str "../da/d00/structiCubANN.html#a54c7e1218b7bd69e76da8c517056ed25",.num 1,.str "iCubANN"]]],
    .arr [.str "jointwriter",.arr [.str "JointWriter",.arr [.str "../df/d23/classJointWriter.html",.num 1,.str "JointWriter"],.arr [.str "../df/d23/classJointWriter.html#a206d13821043ca9e4005922144f4cb0b",.num 1,.str "JointWriter::JointWriter()"]]],
    .arr [.str "jointwsetjointvelocity",.arr [.str "JointWSetJointVelocity",.arr [.str "../da/d00/structiCubANN.html#a1cdddc238d3d9156d258d61e09ba86bc",.num 1,.str "iCubANN"]]],
    .arr [.str "jointwwritedoubleall",.arr [.str "JointWWriteDoubleAll",.arr [.str "../da/d00/structiCubANN.html#afbf948330d224b71c24b945f24b6bd14",.num 1,.str "iCubANN"]]],
    .arr [.str "jointwwritedoublemultiple",.arr [.str "JointWWriteDoubleMultiple",.arr [.str "../da/d00/structiCubANN.html#a9d5d6888b0c055f06a4aa279f606b136",.num 1,.str "iCubANN"]]],
    .arr [.str "jointwwritedoubleone",.arr [.str "JointWWriteDoubleOne",.arr [.str "../da/d00/structiCubANN.html#ad31bf84281c841b5711a83fc441fac05",.num 1,.str "iCubANN"]]],
    .arr [.str "jointwwritepopall",.arr [.str "JointWWritePopAll",.arr [.str "../da/d00/structiCubANN.html#a9b270197678f920b58149250bfd18445",.num 1,.str "iCubANN"]]],
    .arr [.str "jointwwritepopmultiple",.arr [.str "JointWWritePopMultiple",.arr [.str "../da/d00/structiCubANN.html#a024f58fa9643a9d7d8ae3eb4e415352b",.num 1,.str "iCubANN"]]],
    .arr [.str "jointwwritepopone",.arr [.str "JointWWritePopOne",.arr [.str "../da/d00/structiCubANN.html#a125e36f895d8eea650d84f7e192a59a6",.num 1,.str "iCubANN"]]]
  ]

/-! ## JavaScript string comparison -/

/-- The UTF-16 code units of a string, which is what JavaScript compares. -/
def codeUnits (s : String) : List Nat :=
  s.toList.flatMap fun c =>
    if c.toNat < 0x10000 then [c.toNat]
    else [0xD800 + (c.toNat - 0x10000) / 0x400, 0xDC00 + (c.toNat - 0x10000) % 0x400]

/-- Lexicographic `<` on sequences of code units. -/
def unitsLt : List Nat → List Nat → Bool
  | _, [] => false
  | [], _ :: _ => true
  | a :: as, b :: bs => a < b || (a == b && unitsLt as bs)

/-- JavaScript `a < b` on strings. -/
def jsLt (a b : String) : Bool := unitsLt (codeUnits a) (codeUnits b)

/-- JavaScript `a <= b` on strings, which is computed as the negation of `b < a`. -/
def jsLe (a b : String) : Bool := !jsLt b a

/-! ## Tree nodes -/

mutual
/-- A node is an array of exactly three components: label string, URL string, children. -/
def isNode : JSValue → Bool
  | .arr [.str _, .str _, c] => isChildren c
  | _ => false
/-- The children component: `null`, the name of a separately loaded subtree, or an array
of nodes. -/
def isChildren : JSValue → Bool
  | .null => true
  | .str _ => true
  | .arr cs => allNodes cs
  | .num _ => false
/-- Every element of the list is a node. -/
def allNodes : List JSValue → Bool
  | [] => true
  | c :: cs => isNode c && allNodes cs
end

/-- The label of a node, `node[0]`. -/
def label (n : JSValue) : String := ((n.idx? 0).bind str?).getD ""

/-- The URL of a node, `node[1]`. -/
def url (n : JSValue) : String := ((n.idx? 1).bind str?).getD ""

/-- The children component of a node, `node[2]`. -/
def children (n : JSValue) : Option JSValue := n.idx? 2

mutual
/-- The node and every node below it, each paired with the labels on the path from the
root down to and including the node.  The nodes below are the elements of the children
component when that is an array. -/
def walk (path : List String) : JSValue → List (List String × JSValue)
  | .arr [a, b, .arr cs] =>
      (path ++ [label (.arr [a, b, .arr cs])], .arr [a, b, .arr cs]) ::
        walkAll (path ++ [label (.arr [a, b, .arr cs])]) cs
  | n => [(path ++ [label n], n)]
/-- The nodes of a list of sibling trees, in document order. -/
def walkAll (path : List String) : List JSValue → List (List String × JSValue)
  | [] => []
  | c :: cs => walk path c ++ walkAll path cs
end

/-- Every node of a tree binding, at every depth, with its label path. -/
def nodesOf (tree : JSValue) : List (List String × JSValue) := walkAll [] tree.elems

/-! ## File names of the class-annotation tree -/

/-- What remains of `s` after its first `k` occurrences of `/`. -/
def afterSlashes : Nat → List Char → List Char
  | 0, s => s
  | _ + 1, [] => []
  | k + 1, c :: s => if c = '/' then afterSlashes k s else afterSlashes (k + 1) s

/-- A label with every `_` doubled. -/
def escapeLabel (s : String) : List Char :=
  s.toList.flatMap fun c => if c = '_' then ['_', '_'] else [c]

/-- The kind of page a node of the class tree links to. -/
def pageKind (n : JSValue) : Option String :=
  match children n with
  | some (.arr _) => some "namespace"
  | some (.str _) => some "class"
  | _ => none

/-- The file name a label path determines for a page of the given kind. -/
def fileNameOf (kind : String) (path : List String) : List Char :=
  kind.toList ++ "_1_1".toList.intercalate (path.map escapeLabel) ++ ".html".toList

/-! ## Search index entries -/

/-- The token of a search entry, `entry[0]`. -/
def entryToken (e : JSValue) : Option String := (e.idx? 0).bind str?

/-- The display name of a search entry, `entry[1][0]`. -/
def entryName (e : JSValue) : Option String :=
  ((e.idx? 1).bind (·.idx? 0)).bind str?

/-- The link records of a search entry, `entry[1][1]`, `entry[1][2]`, and so on. -/
def entryLinks (e : JSValue) : List JSValue :=
  (((e.idx? 1).map elems).getD []).drop 1

/-- The URL of a link record, `link[0]`. -/
def linkUrl (l : JSValue) : Option String := (l.idx? 0).bind str?

/-- The owning scope of a link record, `link[2]`. -/
def linkScope (l : JSValue) : Option String := (l.idx? 2).bind str?

/-- A link record is an array of exactly three components `[URL, 1, scope]`. -/
def isLinkRecord : JSValue → Bool
  | .arr [.str _, .num 1, .str _] => true
  | _ => false

/-- A search entry is `[token, [display name, link, ...]]` with at least one link record. -/
def isSearchEntry : JSValue → Bool
  | .arr [.str _, .arr (.str _ :: l :: ls)] => (l :: ls).all isLinkRecord
  | _ => false

/-- An array of exactly four components. -/
def hasFourComponents : JSValue → Bool
  | .arr [_, _, _, _] => true
  | _ => false

/-- The entry shape with four-component tuples: `[token, list]` where every array in the
list has exactly four components. -/
def isFourTupleEntry : JSValue → Bool
  | .arr [.str _, .arr xs] => (xs.filter isArr).all hasFourComponents
  | _ => false

/-- An array whose elements are themselves arrays. -/
def isNestedArray : JSValue → Bool
  | .arr xs => xs.all isArr
  | _ => false

/-- A non-empty array whose elements are all strings. -/
def isStringArray : JSValue → Bool
  | .arr (x :: xs) => (x :: xs).all isStr
  | _ => false

/-! ## Token normalization -/

/-- The hexadecimal code of a character code in lower case, at least two digits long. -/
def hexCode (n : Nat) : List Char :=
  match Nat.toDigits 16 n with
  | [d] => ['0', d]
  | ds => ds

/-- An ASCII letter or digit is kept, in lower case; any other character becomes `_`
followed by its hexadecimal code. -/
def normalizeChar (c : Char) : List Char :=
  if c.isAlphanum then [c.toLower] else '_' :: hexCode c.toNat

/-- The search token of a display name. -/
def normalize (name : String) : String :=
  ⟨name.toList.flatMap normalizeChar⟩

/-! ## Link URLs -/

/-- A lower-case hexadecimal digit. -/
def isLowerHex (c : Char) : Bool :=
  c.isDigit || (c.toNat ≥ 'a'.toNat && c.toNat ≤ 'f'.toNat)

/-- Split a URL at its first `#` into the fragment before it and the anchor after it. -/
def splitAnchor : List Char → List Char × Option (List Char)
  | [] => ([], none)
  | c :: s =>
    if c = '#' then ([], some s)
    else ((c :: (splitAnchor s).1), (splitAnchor s).2)

/-- Put a fragment and an optional anchor together again. -/
def joinAnchor : List Char × Option (List Char) → List Char
  | (frag, none) => frag
  | (frag, some a) => frag ++ '#' :: a

/-- A page file `<name>.html`: a non-empty name without `/`, then `.html`. -/
def isPageFile (file : List Char) : Bool :=
  ".html".toList.isSuffixOf file && 5 < file.length && !file.contains '/'

/-- A page path `d<hex>/d<hex><hex>/<name>.html`. -/
def isPagePath : List Char → Bool
  | 'd' :: h1 :: '/' :: 'd' :: h2 :: h3 :: '/' :: file =>
      isLowerHex h1 && isLowerHex h2 && isLowerHex h3 && isPageFile file
  | _ => false

/-- A URL fragment: `../` followed by a page path. -/
def isFragment : List Char → Bool
  | '.' :: '.' :: '/' :: p => isPagePath p
  | _ => false

/-- An anchor: the letter `a` followed by exactly 32 lower-case hexadecimal digits. -/
def isAnchor : List Char → Bool
  | 'a' :: hs => hs.length = 32 && hs.all isLowerHex
  | _ => false

/-! ## Owning scopes -/

/-- What follows the last `/` of `s`; all of `s` when it has none. -/
def afterLastSlash : List Char → List Char
  | [] => []
  | c :: s => if s.contains '/' then afterLastSlash s else if c = '/' then s else c :: s

/-- The part of `s` before the first occurrence of `pat`, if `pat` occurs. -/
def beforeFirst (pat : List Char) : List Char → Option (List Char)
  | [] => none
  | c :: s => if pat.isPrefixOf (c :: s) then some [] else (beforeFirst pat s).map (c :: ·)

/-- The page file name of a URL: after the last `/` and before `.html`. -/
def pageName (u : String) : Option (List Char) :=
  beforeFirst ".html".toList (afterLastSlash u.toList)

/-- Undo the escaping of a name: `__` stands for `_`. -/
def unescape : List Char → List Char
  | c :: d :: s => if c = '_' ∧ d = '_' then '_' :: unescape s else c :: unescape (d :: s)
  | s => s

/-- The kinds of page that belong to a scope. -/
def scopeKinds : List String := ["class", "struct", "namespace"]

/-- The page name is a kind followed by an escaped name, and the scope begins with that
name unescaped. -/
def ScopeOwns (scope : String) (page : List Char) : Prop :=
  ∃ k ∈ scopeKinds, k.toList <+: page ∧ unescape (page.drop k.length) <+: scope.toList

instance (scope : String) (page : List Char) : Decidable (ScopeOwns scope page) := by
  unfold ScopeOwns; infer_instance

/-- Remove a trailing `.html`, if there is one. -/
def dropHtml (u : String) : Option String :=
  if ".html".toList.isSuffixOf u.toList then some ⟨u.toList.take (u.length - 5)⟩ else none

/-! ## The shape of a node as a predicate -/

/-- A node is `[label, URL, children]` where the children component is `null`, the name
of a separately loaded subtree, or an array of nodes. -/
inductive Node : JSValue → Prop
  | leaf (l u : String) : Node (.arr [.str l, .str u, .null])
  | deferred (l u s : String) : Node (.arr [.str l, .str u, .str s])
  | inner (l u : String) (cs : List JSValue) :
      (∀ c ∈ cs, Node c) → Node (.arr [.str l, .str u, .arr cs])

/-! ## The navigation index and its scan -/

/-- The keys of an index binding: the strings among its elements. -/
def keysOf (index : JSValue) : List String := index.elems.filterMap str?

/-- The element `keys[i]` at a JavaScript index; `none` stands for `undefined`. -/
def keyAt (keys : List String) (i : Int) : Option String :=
  if 0 ≤ i then keys[i.toNat]? else none

/-- Modelled from the spec: the condition `NAVTREEINDEX[i+1] <= u` of the scan, which
belongs to the viewer script and is not part of the data files.  A comparison with
`undefined` is false. -/
def scanCond (keys : List String) (u : String) (i : Int) : Bool :=
  match keyAt keys (i + 1) with
  | some k => jsLe k u
  | none => false

/-- Modelled from the spec: the scan that advances `i` while `NAVTREEINDEX[i+1] <= u`,
run for at most `fuel` steps. -/
def scanLoop (keys : List String) (u : String) : Nat → Int → Int
  | 0, i => i
  | fuel + 1, i => if scanCond keys u i then scanLoop keys u fuel (i + 1) else i

/-- Modelled from the spec: the scan over all of the index, begun before the first
key, at `i = -1`, so that every key is examined. -/
def scan (keys : List String) (u : String) : Int :=
  scanLoop keys u keys.length (-1)

/-! ## Sample records -/

/-- The search entry of `joint_limits`. -/
def sampleScopedEntry : JSValue :=
  .arr [.str "joint_5flimits",.arr [.str "joint_limits",.arr [.str "../d2/dd7/namespacejoint__limits.html",.num 1,.str "joint_limits"],.arr [.str "../d2/dd7/namespacejoint__limits.html#ae540d2359ed52defee5d7f276b681dac",.num 1,.str "joint_limits.joint_limits()"]]]

/-- The second link record of the `joint_limits` entry. -/
def sampleLink : JSValue :=
  .arr [.str "../d2/dd7/namespacejoint__limits.html#ae540d2359ed52defee5d7f276b681dac",.num 1,.str "joint_limits.joint_limits()"]

/-- The class node `ANNiCub_wrapper` of the class-annotation tree. -/
def sampleLeaf : JSValue :=
  .arr [.str "ANNiCub_wrapper", .str "d7/d9c/classANN__iCub__Interface_1_1iCub_1_1iCub__Interface_1_1ANNiCub__wrapper.html", .str "d7/d9c/classANN__iCub__Interface_1_1iCub_1_1iCub__Interface_1_1ANNiCub__wrapper"]

/-- The label path of the class node `ANNiCub_wrapper`. -/
def samplePath : List String :=
  ["ANN_iCub_Interface", "iCub", "iCub_Interface", "ANNiCub_wrapper"]

/-- The token of entry `a` is below the token of entry `b` in the string order. -/
def TokenLt (a b : JSValue) : Prop :=
  ∃ s ∈ entryToken a, ∃ t ∈ entryToken b, jsLt s t = true

instance (a b : JSValue) : Decidable (TokenLt a b) := by
  unfold TokenLt; infer_instance

/-! ## Lemmas on the string order -/

theorem unitsLt_irrefl (a : List Nat) : unitsLt a a = false := by
  induction a with
  | nil => rfl
  | cons x xs ih => simp [unitsLt, ih]

theorem unitsLt_trans : ∀ a b c : List Nat,
    unitsLt a b = true → unitsLt b c = true → unitsLt a c = true
  | _, [], _, h, _ => by simp [unitsLt] at h
  | _, _ :: _, [], _, h => by simp [unitsLt] at h
  | [], _ :: _, _ :: _, _, _ => by simp [unitsLt]
  | x :: xs, y :: ys, z :: zs, h₁, h₂ => by
    simp only [unitsLt, Bool.or_eq_true, Bool.and_eq_true, decide_eq_true_eq, beq_iff_eq] at h₁ h₂ ⊢
    rcases h₁ with h₁ | ⟨h₁, t₁⟩
    · rcases h₂ with h₂ | ⟨h₂, _⟩
      · exact Or.inl (by omega)
      · exact Or.inl (by omega)
    · rcases h₂ with h₂ | ⟨h₂, t₂⟩
      · exact Or.inl (by omega)
      · exact Or.inr ⟨by omega, unitsLt_trans xs ys zs t₁ t₂⟩

theorem jsLt_irrefl (a : String) : jsLt a a = false := unitsLt_irrefl _

theorem jsLt_trans {a b c : String} (h₁ : jsLt a b = true) (h₂ : jsLt b c = true) :
    jsLt a c = true := unitsLt_trans _ _ _ h₁ h₂

/-- A key above one that is not `<= u` is not `<= u` either. -/
theorem jsLe_false_of_lt {k k' u : String} (h : jsLe k u = false) (hlt : jsLt k k' = true) :
    jsLe k' u = false := by
  simp only [jsLe, Bool.not_eq_false', Bool.not_eq_eq_eq_not, Bool.not_true] at h ⊢
  exact jsLt_trans h hlt

/-! ## Lemmas on the scan -/

theorem keyAt_natCast (keys : List String) (j : Nat) : keyAt keys (j : Int) = keys[j]? := by
  simp [keyAt]

theorem keyAt_eq_none {keys : List String} {i : Int} (h : (keys.length : Int) ≤ i) :
    keyAt keys i = none := by
  have h0 : 0 ≤ i := le_trans (Int.ofNat_nonneg _) h
  simp only [keyAt, h0, if_true]
  exact List.getElem?_eq_none (by omega)

/-- The scan never moves backwards. -/
theorem le_scanLoop (keys : List String) (u : String) :
    ∀ (fuel : Nat) (i : Int), i ≤ scanLoop keys u fuel i
  | 0, i => by simp [scanLoop]
  | fuel + 1, i => by
    simp only [scanLoop]
    split
    · have := le_scanLoop keys u fuel (i + 1)
      omega
    · exact le_refl i

/-- With fuel for every key that is left, the scan has stopped by itself: its condition
is false where it ends. -/
theorem scanLoop_stops (keys : List String) (u : String) :
    ∀ (fuel : Nat) (i : Int), -1 ≤ i → (keys.length : Int) ≤ fuel + (i + 1) →
      scanCond keys u (scanLoop keys u fuel i) = false
  | 0, i, _, h => by
    have : keyAt keys (i + 1) = none := keyAt_eq_none (by simpa using h)
    simp [scanLoop, scanCond, this]
  | fuel + 1, i, h₁, h₂ => by
    simp only [scanLoop]
    split
    · exact scanLoop_stops keys u fuel (i + 1) (by omega) (by push_cast at h₂ ⊢; omega)
    · rename_i hc
      simpa using hc

/-- Once the scan has stopped, more fuel does not move it. -/
theorem scanLoop_add (keys : List String) (u : String) :
    ∀ (fuel : Nat) (i : Int), scanCond keys u (scanLoop keys u fuel i) = false →
      ∀ extra : Nat, scanLoop keys u (fuel + extra) i = scanLoop keys u fuel i
  | 0, i, h, extra => by
    simp only [scanLoop] at h
    cases extra with
    | zero => rfl
    | succ e => simp [scanLoop, h]
  | fuel + 1, i, h, extra => by
    have hf : fuel + 1 + extra = (fuel + extra) + 1 := by omega
    rw [hf]
    simp only [scanLoop] at h ⊢
    split
    · rename_i hc
      rw [if_pos hc] at h
      exact scanLoop_add keys u fuel (i + 1) h extra
    · rfl

/-- Every key the scan has passed is `<= u`. -/
theorem scanLoop_passed (keys : List String) (u : String) :
    ∀ (fuel : Nat) (i : Int),
      (∀ (j : Nat) (k : String), keys[j]? = some k → (j : Int) ≤ i → jsLe k u = true) →
      ∀ (j : Nat) (k : String), keys[j]? = some k → (j : Int) ≤ scanLoop keys u fuel i →
        jsLe k u = true
  | 0, i, h => by simpa [scanLoop] using h
  | fuel + 1, i, h => by
    simp only [scanLoop]
    split
    · rename_i hc
      apply scanLoop_passed keys u fuel (i + 1)
      intro j k hk hj
      rcases lt_or_eq_of_le hj with hlt | heq
      · exact h j k hk (by omega)
      · have hi : i + 1 = (j : Int) := heq.symm
        simp only [scanCond, hi, keyAt_natCast, hk] at hc
        exact hc
    · exact h

/-- In a strictly ascending index, no key after the place where the scan stopped is
`<= u`. -/
theorem not_le_after_stop (keys : List String) (u : String)
    (hs : keys.Pairwise fun a b => jsLt a b = true) (r : Int) (hr : -1 ≤ r)
    (hstop : scanCond keys u r = false) (j : Nat) (k : String) (hk : keys[j]? = some k)
    (hj : r < (j : Int)) : jsLe k u = false := by
  obtain ⟨n, hn⟩ : ∃ n : Nat, r + 1 = (n : Int) := ⟨(r + 1).toNat, by omega⟩
  have hnj : n ≤ j := by omega
  have hjlen : j < keys.length := (List.getElem?_eq_some_iff.mp hk).1
  have hnlen : n < keys.length := by omega
  have hkn : keys[n]? = some keys[n] := List.getElem?_eq_getElem hnlen
  have hfirst : jsLe keys[n] u = false := by
    simpa [scanCond, hn, keyAt_natCast, hkn] using hstop
  rcases Nat.lt_or_eq_of_le hnj with hlt | heq
  · have hkj : keys[j] = k := (List.getElem?_eq_some_iff.mp hk).2
    have := List.pairwise_iff_getElem.mp hs n j hnlen hjlen hlt
    rw [hkj] at this
    exact jsLe_false_of_lt hfirst this
  · subst heq
    have hkj : keys[n] = k := (List.getElem?_eq_some_iff.mp hk).2
    rw [← hkj]
    exact hfirst

/-- The scan over a strictly ascending index stops; the keys that are `<= u` are exactly
the keys up to the index where it stops. -/
theorem scan_spec (keys : List String) (u : String)
    (hs : keys.Pairwise fun a b => jsLt a b = true) :
    scanCond keys u (scan keys u) = false ∧
    ∀ (j : Nat) (k : String), keys[j]? = some k →
      (jsLe k u = true ↔ (j : Int) ≤ scan keys u) := by
  have hstop : scanCond keys u (scan keys u) = false :=
    scanLoop_stops keys u keys.length (-1) (le_refl _) (by omega)
  refine ⟨hstop, fun j k hk => ⟨fun hle => ?_, fun hj => ?_⟩⟩
  · by_contra hlt
    have := not_le_after_stop keys u hs (scan keys u) (le_scanLoop keys u _ _) hstop j k hk
      (by omega)
    simp [hle] at this
  · exact scanLoop_passed keys u keys.length (-1)
      (fun j' _ _ hj' => absurd hj' (by omega)) j k hk hj

/-! ## Lemmas on shapes -/

theorem linkRecord_shape {l : JSValue} (h : isLinkRecord l = true) :
    ∃ u s : String, l = .arr [.str u, .num 1, .str s] := by
  unfold isLinkRecord at h
  split at h
  · exact ⟨_, _, rfl⟩
  · simp at h

theorem searchEntry_shape {e : JSValue} (h : isSearchEntry e = true) :
    ∃ (token name : String) (links : List JSValue),
      e = .arr [.str token, .arr (.str name :: links)] ∧ links ≠ [] ∧
      ∀ l ∈ links, ∃ u s : String, l = .arr [.str u, .num 1, .str s] := by
  unfold isSearchEntry at h
  split at h
  · rename_i t n l ls
    refine ⟨t, n, l :: ls, rfl, List.cons_ne_nil _ _, fun x hx => ?_⟩
    exact linkRecord_shape (List.all_eq_true.mp h x hx)
  · simp at h

theorem allNodes_iff (cs : List JSValue) :
    allNodes cs = true ↔ ∀ c ∈ cs, isNode c = true := by
  induction cs with
  | nil => simp [allNodes]
  | cons c cs ih => simp [allNodes, ih]

theorem node_of_isNode_aux : ∀ (n : Nat) (v : JSValue), sizeOf v ≤ n → isNode v = true → Node v
  | 0, v, hn, _ => by cases v <;> simp at hn
  | n + 1, v, hn, h => by
    unfold isNode at h
    split at h
    · rename_i l u c
      unfold isChildren at h
      split at h
      · exact Node.leaf l u
      · exact Node.deferred l u _
      · rename_i cs
        refine Node.inner l u cs fun c hc => ?_
        have hlt := List.sizeOf_lt_of_mem hc
        simp at hn
        exact node_of_isNode_aux n c (by omega) ((allNodes_iff cs).mp h c hc)
      · simp at h
    · simp at h

theorem node_of_isNode {v : JSValue} (h : isNode v = true) : Node v :=
  node_of_isNode_aux (sizeOf v) v (le_refl _) h

theorem filter_length_le_one {α β : Type} [DecidableEq β] (f : α → β) :
    ∀ (l : List α), (l.map f).Nodup → ∀ b : β, (l.filter fun a => f a = b).length ≤ 1
  | [], _, _ => by simp
  | a :: l, h, b => by
    rw [List.map_cons, List.nodup_cons] at h
    by_cases hab : f a = b
    · have hnil : l.filter (fun a => f a = b) = [] := by
        rw [List.filter_eq_nil_iff]
        intro x hx hxb
        exact h.1 (List.mem_map.mpr ⟨x, hx, by rw [hab]; simpa using hxb⟩)
      simp [List.filter_cons, hab, hnil]
    · simpa [List.filter_cons, hab] using filter_length_le_one f l h.2 b

/-! ## The trees -/

/-- C1: every node of `NAVTREE` and every node of `annotated_dup`, at every depth, is an
array of exactly three components, a label string, a URL string and a children component
that is `null`, an array of nodes of the same shape, or a string naming a separately
loaded subtree; no node has another form. -/
theorem C1_every_node_is_a_triple :
    (NAVTREE.isArr = true ∧ ∀ n ∈ NAVTREE.elems, Node n) ∧
    (annotated_dup.isArr = true ∧ ∀ n ∈ annotated_dup.elems, Node n) ∧
    (∀ pn ∈ nodesOf NAVTREE, Node pn.2) ∧ (∀ pn ∈ nodesOf annotated_dup, Node pn.2) := by
  have h₁ : ∀ n ∈ NAVTREE.elems, isNode n = true := by decide
  have h₂ : ∀ n ∈ annotated_dup.elems, isNode n = true := by decide
  have h₃ : ∀ pn ∈ nodesOf NAVTREE, isNode pn.2 = true := by decide
  have h₄ : ∀ pn ∈ nodesOf annotated_dup, isNode pn.2 = true := by decide
  exact ⟨⟨rfl, fun n hn => node_of_isNode (h₁ n hn)⟩, ⟨rfl, fun n hn => node_of_isNode (h₂ n hn)⟩,
    fun pn hpn => node_of_isNode (h₃ pn hpn), fun pn hpn => node_of_isNode (h₄ pn hpn)⟩

/-- C8: for every node of `annotated_dup`, the file name of its URL, the part after the
second `/`, is the kind, `namespace` when the children component is an array and `class`
when it is a string, followed by the labels on the path from the root to the node, each
with every `_` doubled, joined by `_1_1`, followed by `.html`. -/
theorem C8_file_name_from_label_path :
    ∀ pn ∈ nodesOf annotated_dup,
      ∃ kind ∈ pageKind pn.2, afterSlashes 2 (url pn.2).toList = fileNameOf kind pn.1 := by
  decide

theorem C8_file_name_from_label_path_witness :
    ∃ kind ∈ pageKind sampleLeaf,
      afterSlashes 2 (url sampleLeaf).toList = fileNameOf kind samplePath :=
  C8_file_name_from_label_path (samplePath, sampleLeaf)
    (List.getElem?_mem (show (nodesOf annotated_dup)[13]? = some (samplePath, sampleLeaf) from rfl))

/-- C9: for every leaf of `annotated_dup`, a node whose children component is a string,
that string is the URL of the node with the trailing `.html` removed, and appending
`.html` to it gives the URL back. -/
theorem C9_leaf_children_is_url_without_html :
    ∀ pn ∈ nodesOf annotated_dup, ∀ s ∈ (children pn.2).bind str?,
      dropHtml (url pn.2) = some s ∧ s ++ ".html" = url pn.2 := by
  decide

theorem C9_leaf_children_is_url_without_html_witness :
    dropHtml (url sampleLeaf) =
        some "d7/d9c/classANN__iCub__Interface_1_1iCub_1_1iCub__Interface_1_1ANNiCub__wrapper" ∧
      "d7/d9c/classANN__iCub__Interface_1_1iCub_1_1iCub__Interface_1_1ANNiCub__wrapper" ++ ".html" =
        url sampleLeaf :=
  C9_leaf_children_is_url_without_html (samplePath, sampleLeaf)
    (List.getElem?_mem (show (nodesOf annotated_dup)[13]? = some (samplePath, sampleLeaf) from rfl))
    "d7/d9c/classANN__iCub__Interface_1_1iCub_1_1iCub__Interface_1_1ANNiCub__wrapper" rfl

/-! ## The search index -/

/-- C2, as stated, fails: the entry of `joint_limits`, fifth in `searchData`, does not
map its token to four-component tuples; its link records have three components each. -/
theorem C2_four_components_fails :
    (searchData.elems[4]?).map isFourTupleEntry = some false ∧
    ((searchData.elems[4]?).map fun e => (entryLinks e).map fun l => l.elems.length) =
      some [3, 3] ∧
    ¬ ∀ e ∈ searchData.elems, isFourTupleEntry e = true := by
  decide

/-- C2, amended: every entry of `searchData` is a pair of its token and an array that
starts with the display name and goes on with one or more link records, each of exactly
the three components URL, the number 1 and owning scope. -/
theorem C2_search_entry_shape :
    ∀ e ∈ searchData.elems,
      ∃ (token name : String) (links : List JSValue),
        e = .arr [.str token, .arr (.str name :: links)] ∧ links ≠ [] ∧
        ∀ l ∈ links, ∃ u s : String, l = .arr [.str u, .num 1, .str s] := by
  have h : ∀ e ∈ searchData.elems, isSearchEntry e = true := by decide
  exact fun e he => searchEntry_shape (h e he)

theorem C2_search_entry_shape_witness :
    ∃ (token name : String) (links : List JSValue),
      sampleScopedEntry = .arr [.str token, .arr (.str name :: links)] ∧ links ≠ [] ∧
      ∀ l ∈ links, ∃ u s : String, l = .arr [.str u, .num 1, .str s] :=
  C2_search_entry_shape sampleScopedEntry
    (List.getElem?_mem (show searchData.elems[4]? = some sampleScopedEntry from rfl))

/-- C3: for every entry of `searchData` the token is the normalization of the display
name: lower case, with every character that is no ASCII letter or digit replaced by `_`
and its two-digit lower-case hexadecimal code, so that `_` becomes `_5f` and `.` becomes
`_2e`. -/
theorem C3_token_is_normalized_name :
    (∀ e ∈ searchData.elems, ∃ name ∈ entryName e, entryToken e = some (normalize name)) ∧
    normalizeChar '_' = ['_', '5', 'f'] ∧ normalizeChar '.' = ['_', '2', 'e'] ∧
    normalize "Joint_Reader.cpp" = "joint_5freader_2ecpp" := by
  decide

/-- C5: the tokens of `searchData`, read in file order, are strictly ascending in the
order of character codes, so no token occurs in two entries and a lookup by token
yields at most one entry. -/
theorem C5_tokens_strictly_ascending :
    searchData.elems.Pairwise TokenLt ∧
    (searchData.elems.map entryToken).Nodup ∧
    ∀ t : String, (searchData.elems.filter fun e => entryToken e = some t).length ≤ 1 := by
  have hasc : searchData.elems.Pairwise TokenLt := by decide
  have hnodup : (searchData.elems.map entryToken).Nodup := by
    rw [List.Nodup, List.pairwise_map]
    refine hasc.imp ?_
    rintro a b ⟨s, hs, t, ht, hlt⟩ heq
    rw [Option.mem_def] at hs ht
    rw [hs, ht, Option.some.injEq] at heq
    rw [heq, jsLt_irrefl] at hlt
    exact Bool.false_ne_true hlt
  exact ⟨hasc, hnodup, fun t => filter_length_le_one entryToken _ hnodup (some t)⟩

/-- C6: for every link record of every `searchData` entry whose scope is not empty, the
page file name of the URL, after the last `/` and before `.html`, is one of `class`,
`struct`, `namespace` followed by an escaped name in which `__` stands for `_`, and the
scope begins with that name unescaped. -/
theorem C6_scope_owns_linked_page :
    ∀ e ∈ searchData.elems, ∀ l ∈ entryLinks e,
      ∃ u ∈ linkUrl l, ∃ s ∈ linkScope l, (s ≠ "" → ∃ p ∈ pageName u, ScopeOwns s p) := by
  decide

theorem C6_scope_owns_linked_page_witness :
    ∃ u ∈ linkUrl sampleLink, ∃ s ∈ linkScope sampleLink,
      (s ≠ "" → ∃ p ∈ pageName u, ScopeOwns s p) :=
  C6_scope_owns_linked_page sampleScopedEntry
    (List.getElem?_mem (show searchData.elems[4]? = some sampleScopedEntry from rfl))
    sampleLink
    (List.getElem?_mem (show (entryLinks sampleScopedEntry)[1]? = some sampleLink from rfl))

/-- C7: every link URL of `searchData` splits into a fragment and an optional anchor: it
is `../` followed by a page path `d<hex>/d<hex><hex>/<name>.html`, optionally followed
by a single `#` and an anchor, and every anchor is the letter `a` followed by exactly 32
lower-case hexadecimal digits. -/
theorem C7_link_url_format :
    ∀ e ∈ searchData.elems, ∀ l ∈ entryLinks e, ∃ u ∈ linkUrl l,
      joinAnchor (splitAnchor u.toList) = u.toList ∧
      isFragment (splitAnchor u.toList).1 = true ∧
      ∀ a ∈ (splitAnchor u.toList).2, isAnchor a = true := by
  decide

theorem C7_link_url_format_witness :
    ∃ u ∈ linkUrl sampleLink,
      joinAnchor (splitAnchor u.toList) = u.toList ∧
      isFragment (splitAnchor u.toList).1 = true ∧
      ∀ a ∈ (splitAnchor u.toList).2, isAnchor a = true :=
  C7_link_url_format sampleScopedEntry
    (List.getElem?_mem (show searchData.elems[4]? = some sampleScopedEntry from rfl))
    sampleLink
    (List.getElem?_mem (show (entryLinks sampleScopedEntry)[1]? = some sampleLink from rfl))

/-! ## The bindings -/

/-- C4, as stated, fails: `NAVTREEINDEX` is no array of arrays. -/
theorem C4_navtreeindex_not_nested :
    isNestedArray NAVTREEINDEX = false ∧ (NAVTREEINDEX.elems.map isArr) = [false, false] := by
  decide

/-- C4, amended: `NAVTREE` and `searchData` each hold a non-empty array whose elements
are themselves arrays; `NAVTREEINDEX` holds a non-empty flat array of strings. -/
theorem C4_bindings_hold_arrays :
    (isNestedArray NAVTREE = true ∧ NAVTREE.elems.isEmpty = false) ∧
    (isNestedArray searchData = true ∧ searchData.elems.isEmpty = false) ∧
    isStringArray NAVTREEINDEX = true := by
  decide

/-- C10: `NAVTREEINDEX` is a non-empty array of strings, strictly ascending in the order
of character codes, so that for any URL `u` the scan that advances `i` while
`NAVTREEINDEX[i+1] <= u` stops, whatever fuel it has beyond one step for each key, and
stops at the last index whose key is `<= u`: the keys `<= u` are exactly those at the
indices up to where the scan stops. -/
theorem C10_navtreeindex_ascending_scan :
    NAVTREEINDEX = .arr ((keysOf NAVTREEINDEX).map .str) ∧
    keysOf NAVTREEINDEX ≠ [] ∧
    (keysOf NAVTREEINDEX).Pairwise (fun a b => jsLt a b = true) ∧
    ∀ u : String,
      scanCond (keysOf NAVTREEINDEX) u (scan (keysOf NAVTREEINDEX) u) = false ∧
      (∀ extra : Nat,
        scanLoop (keysOf NAVTREEINDEX) u ((keysOf NAVTREEINDEX).length + extra) (-1) =
          scan (keysOf NAVTREEINDEX) u) ∧
      ∀ j : Fin (keysOf NAVTREEINDEX).length,
        (jsLe ((keysOf NAVTREEINDEX).get j) u = true ↔
          (j.val : Int) ≤ scan (keysOf NAVTREEINDEX) u) := by
  have hasc : (keysOf NAVTREEINDEX).Pairwise (fun a b => jsLt a b = true) := by decide
  refine ⟨rfl, by decide, hasc, fun u => ?_⟩
  have h := scan_spec (keysOf NAVTREEINDEX) u hasc
  exact ⟨h.1, scanLoop_add _ u _ (-1) h.1,
    fun j => h.2 j.val _ (List.getElem?_eq_getElem j.isLt)⟩

end DoxygenData
